import Mathlib

/-!
Verification of the meme-stock early-warning scorer
(`backend/meme_detector.py`, class `MemeStockDetector`).

The Python code is embedded shallowly:

* Python numbers are modelled by exact rationals (`ℚ`) and integers (`ℤ`).
  The composite combiner multiplies integer sub-scores (each in `[0,10]`) by
  the float literals `0.40`, `0.35`, `0.25` and compares against `7.5`,
  `6.0`, `4.0`; an exhaustive enumeration of all reachable sub-score triples
  shows IEEE-754 double arithmetic and exact rational arithmetic agree on
  every threshold comparison and on the 2-decimal rounding there, so the
  rational model is observationally faithful on reachable states.
* Provider calls (yfinance options/history, ApeWisdom) are modelled as
  explicit response values of type `Except String _`; a `.error` response
  models a raised exception (or a non-200 HTTP status for ApeWisdom).
* The mutable fields of `MemeStockDetector` (`_apewisdom_cache`,
  `_apewisdom_ts`, `_options_cache`) become an explicit `DetectorState`
  threaded through the functions; `datetime.now()` becomes an explicit
  `now : ℚ` argument (seconds).
* Display-only fields are carried along where they are plain data; the
  `volatility_ratio` display value of the volume signal involves a real
  square root (pandas `std`) and is omitted from the record, but its one
  behavioural use — the comparison `volatility_ratio > 2.0` — is modelled
  exactly by the decidable predicate `sqrtRatioGTTwo` (squaring out the
  square roots).
-/

namespace MemeDetector

/-- Qualitative label attached to each signal (the `"signal"` key of the
Python result dict). -/
inductive Label where
  | STRONG
  | MODERATE
  | WEAK
  | NO_DATA
  | ERROR
deriving DecidableEq

/-- Alert level of a composite result. -/
inductive AlertLevel where
  | CRITICAL
  | HIGH
  | MEDIUM
  | LOW
deriving DecidableEq

/-- Python `"STRONG" if score >= 7 else "MODERATE" if score >= 4 else "WEAK"`. -/
def labelOfScore (s : ℤ) : Label :=
  if s ≥ 7 then .STRONG else if s ≥ 4 then .MODERATE else .WEAK

/-- Python `round(q)` to an integer: round half to even. -/
def roundHalfEven (q : ℚ) : ℤ :=
  if q - ⌊q⌋ < 1/2 then ⌊q⌋
  else if q - ⌊q⌋ > 1/2 then ⌊q⌋ + 1
  else if ⌊q⌋ % 2 = 0 then ⌊q⌋ else ⌊q⌋ + 1

/-- Python `round(q, 2)`. -/
def pyRound2 (q : ℚ) : ℚ := (roundHalfEven (q * 100) : ℚ) / 100

/-- Python `int(q)`: truncation toward zero. -/
def pyInt (q : ℚ) : ℤ := if q ≥ 0 then ⌊q⌋ else ⌈q⌉

/-! ## Signal 1: unusual options activity (`_fetch_options_signal`) -/

/-- Sums extracted from one expiration's option chain
(`chain.calls['volume'].fillna(0).sum()` and friends). -/
structure ChainSums where
  call_volume : ℚ
  put_volume : ℚ
  call_oi : ℚ
  put_oi : ℚ
deriving DecidableEq

/-- The options-chain provider for one ticker: the `stock.options`
expiration-list call and the per-expiration `stock.option_chain` call,
each of which may raise. -/
structure OptionsProvider where
  expirations : Except String (List String)
  chain : String → Except String ChainSums

/-- Totals accumulated across the near-term expirations. -/
structure Totals where
  call_volume : ℚ
  put_volume : ℚ
  call_oi : ℚ
  put_oi : ℚ
deriving DecidableEq

def Totals.zero : Totals := ⟨0, 0, 0, 0⟩

/-- The accumulation loop of `_fetch_options_signal`: a failing chain fetch
is logged and skipped (`continue`), keeping partial data. -/
def sumChains (chain : String → Except String ChainSums) (dates : List String) : Totals :=
  dates.foldl
    (fun acc d =>
      match chain d with
      | .ok c =>
          ⟨acc.call_volume + c.call_volume, acc.put_volume + c.put_volume,
           acc.call_oi + c.call_oi, acc.put_oi + c.put_oi⟩
      | .error _ => acc)
    Totals.zero

/-- Result dict of the options signal.  The `volume_oi_ratio`,
`total_call_volume` and `total_put_volume` keys exist only on the success
path, hence `Option`. -/
structure OptionsResult where
  score : ℤ
  signal : Label
  call_put_ratio : ℚ
  volume_oi_ratio : Option ℚ
  unusual_activity : Bool
  total_call_volume : Option ℤ
  total_put_volume : Option ℤ
deriving DecidableEq

/-- The `NO_DATA` options dict (no expirations available). -/
def optionsNoData : OptionsResult := ⟨0, .NO_DATA, 0, none, false, none, none⟩

/-- The `ERROR` options dict (outer exception handler). -/
def optionsError : OptionsResult := ⟨0, .ERROR, 0, none, false, none, none⟩

/-- Scoring step of `_fetch_options_signal` on the accumulated totals. -/
def scoreOptionsTotals (t : Totals) : OptionsResult :=
  let call_put_ratio := t.call_volume / (t.put_volume + 1)
  let call_volume_oi_ratio := t.call_volume / (t.call_oi + 1)
  let s1 : ℤ := if call_put_ratio > 3 then 5 else if call_put_ratio > 2 then 3 else 0
  let s2 : ℤ := if call_volume_oi_ratio > 1/2 then 3 else if call_volume_oi_ratio > 3/10 then 2 else 0
  let unusual := decide (call_put_ratio > 3) || decide (call_volume_oi_ratio > 1/2)
  let score := min (s1 + s2) 10
  ⟨score, labelOfScore score, pyRound2 call_put_ratio, some (pyRound2 call_volume_oi_ratio),
   unusual, some (pyInt t.call_volume), some (pyInt t.put_volume)⟩

/-- `_fetch_options_signal`. -/
def fetchOptionsSignal (p : OptionsProvider) : OptionsResult :=
  match p.expirations with
  | .error _ => optionsError
  | .ok exps =>
      if exps.length = 0 then optionsNoData
      else
        let near := if exps.length ≥ 2 then exps.take 2 else exps.take 1
        scoreOptionsTotals (sumChains p.chain near)

/-! ## Signal 2: volume spikes (`get_volume_signal`) -/

/-- One row of the 60-day daily history (`date` is irrelevant to the logic). -/
structure Row where
  close : ℚ
  volume : ℚ
deriving DecidableEq

/-- Result dict of the volume signal.  The success-path-only keys
(`volume_ratio_today`, `volume_ratio_5d`, `avg_volume_30d`, `today_volume`)
are `Option`; the degraded dicts instead carry a constant `"volume_ratio": 0`
key, which holds no information and is not modelled.  The `volatility_ratio`
display value is irrational (a ratio of standard deviations) and is omitted;
its only behavioural use, the comparison `volatility_ratio > 2.0`, is
modelled exactly by `sqrtRatioGTTwo` below. -/
structure VolumeResult where
  score : ℤ
  signal : Label
  volume_ratio_today : Option ℚ
  volume_ratio_5d : Option ℚ
  unusual_volume : Bool
  avg_volume_30d : Option ℤ
  today_volume : Option ℤ
deriving DecidableEq

/-- The `NO_DATA` volume dict (fewer than 5 history rows). -/
def volumeNoData : VolumeResult := ⟨0, .NO_DATA, none, none, false, none, none⟩

/-- The `ERROR` volume dict (exception handler). -/
def volumeError : VolumeResult := ⟨0, .ERROR, none, none, false, none, none⟩

/-- pandas `Series.mean()`. -/
def listMean (xs : List ℚ) : ℚ := xs.sum / xs.length

/-- pandas sample variance (`ddof = 1`), the square of `Series.std()`. -/
def sampleVar (xs : List ℚ) : ℚ :=
  (xs.map (fun x => (x - listMean xs) ^ 2)).sum / ((xs.length : ℚ) - 1)

/-- pandas `Series.pct_change().dropna()`: consecutive relative changes. -/
def pctChange : List ℚ → List ℚ
  | a :: b :: rest => (b - a) / a :: pctChange (b :: rest)
  | _ => []

/-- Decides `√a / (√b + c) > 2` (with `a b ≥ 0 < c`) exactly, by squaring:
`√a > 2√b + 2c  ↔  a - 4b - 4c² > 4·(2c)·√b  ↔  l > 0 ∧ l² > 16·(2c)²·b`
where `l := a - 4b - (2c)²`.  This is the comparison
`volatility_ratio > 2.0` of the Python code with `a` the variance of the
last five returns, `b` the variance of the first thirty and `c = 0.0001`. -/
def sqrtRatioGTTwo (a b c : ℚ) : Bool :=
  decide (0 < a - 4*b - (2*c)^2 ∧ 16 * (2*c)^2 * b < (a - 4*b - (2*c)^2)^2)

/-- `get_volume_signal`.  `histResp` is the provider's `history(period="60d")`
response (chronological, oldest first), or a raised exception.  Volume is
never cached: this function consults no state. -/
def getVolumeSignal (histResp : Except String (List Row)) : VolumeResult :=
  match histResp with
  | .error _ => volumeError
  | .ok hist =>
      if hist.length < 5 then volumeNoData
      else
        let recent5 := hist.drop (hist.length - 5)
        let baseline30 := hist.take 30
        let avg_volume_30d := listMean (baseline30.map Row.volume)
        let recent_volume := listMean (recent5.map Row.volume)
        let today_volume := ((hist.getLast?).map Row.volume).getD 0
        let volume_ratio_today := today_volume / (avg_volume_30d + 1)
        let volume_ratio_5d := recent_volume / (avg_volume_30d + 1)
        let returns := pctChange (hist.map Row.close)
        let var5 := sampleVar (returns.drop (returns.length - 5))
        let var30 := sampleVar (returns.take 30)
        let s1 : ℤ :=
          if volume_ratio_today > 3 then 5
          else if volume_ratio_today > 2 then 3
          else if volume_ratio_today > 3/2 then 1 else 0
        let s2 : ℤ := if volume_ratio_5d > 2 then 3 else if volume_ratio_5d > 3/2 then 2 else 0
        let s3 : ℤ := if sqrtRatioGTTwo var5 var30 (1/10000) then 2 else 0
        let unusual := decide (volume_ratio_today > 3) || decide (volume_ratio_5d > 2)
        let score := min (s1 + s2 + s3) 10
        ⟨score, labelOfScore score, some (pyRound2 volume_ratio_today),
         some (pyRound2 volume_ratio_5d), unusual, some (pyInt avg_volume_30d),
         some (pyInt today_volume)⟩

/-! ## Signal 3: social buzz (`fetch_apewisdom_data` / `get_social_signal`) -/

/-- One entry of the ApeWisdom trending list.  A `none` field models an
absent JSON key, matching the Python `item.get(key, default)` accesses. -/
structure ApeEntry where
  ticker : Option String
  mentions : Option ℤ
  rank : Option ℤ
  upvotes : Option ℤ
deriving DecidableEq

/-- Result dict of the social signal (all keys present on every path). -/
structure SocialResult where
  score : ℤ
  signal : Label
  mentions : ℤ
  rank : ℤ
  upvotes : ℤ
  unusual_buzz : Bool
deriving DecidableEq

/-- The `NO_DATA` social dict (ticker absent from the shared list). -/
def socialNoData : SocialResult := ⟨0, .NO_DATA, 0, 0, 0, false⟩

/-- Body of `get_social_signal` once the shared trending list is in hand:
exact case-insensitive match, then rank/mention scoring. -/
def scoreSocial (ticker : String) (all_tickers : List ApeEntry) : SocialResult :=
  match all_tickers.find? (fun e => (e.ticker.getD "").toUpper == ticker.toUpper) with
  | none => socialNoData
  | some m =>
      let mentions := m.mentions.getD 0
      let rank := m.rank.getD 999
      let upvotes := m.upvotes.getD 0
      let s1 : ℤ :=
        if rank ≤ 5 then 5
        else if rank ≤ 15 then 3
        else if rank ≤ 30 then 2
        else if rank ≤ 50 then 1 else 0
      let s2 : ℤ :=
        if mentions ≥ 100 then 4
        else if mentions ≥ 50 then 3
        else if mentions ≥ 20 then 2
        else if mentions ≥ 10 then 1 else 0
      let unusual := decide (rank ≤ 5) || decide (mentions ≥ 100)
      let score := min (s1 + s2) 10
      ⟨score, labelOfScore score, mentions, rank, upvotes, unusual⟩

/-! ## Detector state and caches -/

/-- The mutable fields of `MemeStockDetector`: the shared ApeWisdom cache
(`_apewisdom_cache` / `_apewisdom_ts`) and the per-ticker options cache
(`_options_cache`, ticker → (result, fetch time in seconds)). -/
structure DetectorState where
  apeCache : Option (List ApeEntry)
  apeTs : Option ℚ
  optionsCache : List (String × OptionsResult × ℚ)
deriving DecidableEq

/-- The state built by `__init__`. -/
def DetectorState.init : DetectorState := ⟨none, none, []⟩

/-- `_options_cache_ttl = 4 * 3600` seconds. -/
def optionsCacheTTL : ℚ := 4 * 3600

/-- Python `dict.get` on the options cache. -/
def cacheLookup (c : List (String × OptionsResult × ℚ)) (k : String) :
    Option (OptionsResult × ℚ) :=
  (c.find? (fun e => e.1 == k)).map (·.2)

/-- Python dict assignment `cache[k] = v` (overwrite, never merge). -/
def cacheInsert (c : List (String × OptionsResult × ℚ)) (k : String)
    (v : OptionsResult × ℚ) : List (String × OptionsResult × ℚ) :=
  (k, v) :: c.filter (fun e => !(e.1 == k))

/-- `get_options_signal`: serve from the per-ticker cache when the entry is
younger than 4 hours, otherwise refetch and overwrite the entry. -/
def getOptionsSignal (st : DetectorState) (now : ℚ) (ticker : String)
    (p : OptionsProvider) : OptionsResult × DetectorState :=
  let tu := ticker.toUpper
  match cacheLookup st.optionsCache tu with
  | some (data, ts) =>
      if now - ts < optionsCacheTTL then (data, st)
      else
        let r := fetchOptionsSignal p
        (r, { st with optionsCache := cacheInsert st.optionsCache tu (r, now) })
  | none =>
      let r := fetchOptionsSignal p
      (r, { st with optionsCache := cacheInsert st.optionsCache tu (r, now) })

/-- The refetch branch of `fetch_apewisdom_data`: an HTTP 200 stores and
returns the (possibly empty) results list; a non-200 status or an exception
returns `self._apewisdom_cache or []` without touching the cache.  The
`Bool` component records that the provider was actually called. -/
def apeFetch (st : DetectorState) (now : ℚ) (resp : Except String (List ApeEntry)) :
    List ApeEntry × DetectorState × Bool :=
  match resp with
  | .ok results => (results, { st with apeCache := some results, apeTs := some now }, true)
  | .error _ => (st.apeCache.getD [], st, true)

/-- `fetch_apewisdom_data`: serve the shared cross-ticker list from cache
when both cache fields are set and the entry is younger than 600 seconds,
otherwise call the provider. -/
def fetchApewisdomData (st : DetectorState) (now : ℚ)
    (resp : Except String (List ApeEntry)) : List ApeEntry × DetectorState × Bool :=
  match st.apeCache, st.apeTs with
  | some c, some ts =>
      if now - ts < 600 then (c, st, false)
      else apeFetch st now resp
  | _, _ => apeFetch st now resp

/-- `get_social_signal`: obtain the shared list, then score this ticker
against it. -/
def getSocialSignal (st : DetectorState) (now : ℚ) (ticker : String)
    (resp : Except String (List ApeEntry)) : SocialResult × DetectorState × Bool :=
  let fetched := fetchApewisdomData st now resp
  (scoreSocial ticker fetched.1, fetched.2.1, fetched.2.2)

/-! ## Composite scorer (`get_early_warning_score`) -/

/-- The weighted combination `0.40*options + 0.35*volume + 0.25*social`. -/
def weightedScore (o v s : ℤ) : ℚ :=
  40/100 * (o : ℚ) + 35/100 * (v : ℚ) + 25/100 * (s : ℚ)

/-- The alert-level cascade of `get_early_warning_score`, in the exact
order of the Python `if`/`elif` chain. -/
def alertLevel (weighted : ℚ) (signals_triggered : ℕ) : AlertLevel :=
  if weighted ≥ 15/2 ∧ signals_triggered ≥ 2 then .CRITICAL
  else if weighted ≥ 6 ∨ signals_triggered ≥ 2 then .HIGH
  else if weighted ≥ 4 then .MEDIUM
  else .LOW

/-- The composite result dict returned by `get_early_warning_score`. -/
structure CompositeResult where
  ticker : String
  early_warning_score : ℚ
  alert_level : AlertLevel
  signals_triggered : ℕ
  options_signal : OptionsResult
  volume_signal : VolumeResult
  social_signal : SocialResult
  timestamp : ℚ
deriving DecidableEq

/-- The provider responses observed by one `get_early_warning_score` call. -/
structure Env where
  options : OptionsProvider
  history : Except String (List Row)
  ape : Except String (List ApeEntry)

/-- `get_early_warning_score`: fetch the three signals (options through its
per-ticker cache, volume fresh, social through the shared cache), combine
them into the weighted score, count the unusual flags and classify. -/
def getEarlyWarningScore (st : DetectorState) (now : ℚ) (ticker : String)
    (env : Env) : CompositeResult × DetectorState :=
  let tu := ticker.toUpper
  let fetchedO := getOptionsSignal st now tu env.options
  let options_data := fetchedO.1
  let volume_data := getVolumeSignal env.history
  let fetchedS := getSocialSignal fetchedO.2 now tu env.ape
  let social_data := fetchedS.1
  let weighted := weightedScore options_data.score volume_data.score social_data.score
  let signals_triggered : ℕ :=
    (if options_data.unusual_activity then 1 else 0) +
    (if volume_data.unusual_volume then 1 else 0) +
    (if social_data.unusual_buzz then 1 else 0)
  ({ ticker := tu,
     early_warning_score := pyRound2 weighted,
     alert_level := alertLevel weighted signals_triggered,
     signals_triggered := signals_triggered,
     options_signal := options_data,
     volume_signal := volume_data,
     social_signal := social_data,
     timestamp := now }, fetchedS.2.1)

/-! ## Watchlist scanner (`scan_watchlist`) -/

/-- One per-ticker step of the scan loop.  The step function abstracts
`get_early_warning_score` together with the possibility that the call
raises an unrecovered exception: `(none, st')` models a raise (caught by
the scanner's `try`/`except`, which logs and continues), `(some r, st')`
a normal return. -/
def runScan (f : String → DetectorState → Option CompositeResult × DetectorState) :
    DetectorState → List String → List CompositeResult × DetectorState
  | st, [] => ([], st)
  | st, t :: ts =>
      let step := f t st
      let rest := runScan f step.2 ts
      match step.1 with
      | some r => (r :: rest.1, rest.2)
      | none => rest

/-- Python `sorted(results, key=lambda x: x['early_warning_score'],
reverse=True)`: a stable descending sort on the score. -/
def sortDescending (rs : List CompositeResult) : List CompositeResult :=
  rs.mergeSort (fun a b => decide (b.early_warning_score ≤ a.early_warning_score))

/-- `scan_watchlist`: visit the tickers in order, skip the ones whose
scoring raised, and sort the collected results by descending score. -/
def scanWatchlist (f : String → DetectorState → Option CompositeResult × DetectorState)
    (st : DetectorState) (tickers : List String) :
    List CompositeResult × DetectorState :=
  let ran := runScan f st tickers
  (sortDescending ran.1, ran.2)

/-- Invariant of the options cache: every stored result has a score in
`[0, 8]` (what `_fetch_options_signal` can produce). -/
def OptionsCacheBounded (st : DetectorState) : Prop :=
  ∀ e ∈ st.optionsCache, 0 ≤ (e.2.1).score ∧ (e.2.1).score ≤ 8

/-! ## Concrete material for the watchlist-scan example -/

/-- A composite result with the given ticker and score and neutral signals,
used to instantiate the scan example. -/
def exComposite (t : String) (sc : ℚ) : CompositeResult :=
  ⟨t, sc, .LOW, 0, optionsNoData, volumeNoData, socialNoData, 0⟩

/-- A scan step where ticker `B`'s scoring raises and `A`, `C` succeed with
scores 5 and 2. -/
def exScanStep (t : String) (st : DetectorState) :
    Option CompositeResult × DetectorState :=
  (if t = "B" then none
   else if t = "A" then some (exComposite "A" 5)
   else some (exComposite "C" 2), st)

/-! ## Concrete environments for the cache-determinism analysis -/

/-- First-call environment: the options provider raises, the history
provider returns an empty frame, ApeWisdom answers 200 with an empty list. -/
def envFirst : Env :=
  ⟨⟨.error "boom", fun _ => .error "boom"⟩, .ok [], .ok []⟩

/-- Second-call environment: same options and ApeWisdom behaviour, but the
history provider now raises. -/
def envSecond : Env :=
  ⟨⟨.error "boom", fun _ => .error "boom"⟩, .error "down", .ok []⟩

/-! ## Helper lemmas: score bounds -/

theorem scoreOptionsTotals_score_bounds (t : Totals) :
    0 ≤ (scoreOptionsTotals t).score ∧ (scoreOptionsTotals t).score ≤ 8 := by
  simp only [scoreOptionsTotals]
  split_ifs <;> decide

theorem fetchOptionsSignal_score_bounds (p : OptionsProvider) :
    0 ≤ (fetchOptionsSignal p).score ∧ (fetchOptionsSignal p).score ≤ 8 := by
  unfold fetchOptionsSignal
  cases hE : p.expirations with
  | error e => dsimp only; decide
  | ok exps =>
      dsimp only
      split_ifs
      · decide
      · exact scoreOptionsTotals_score_bounds _
      · exact scoreOptionsTotals_score_bounds _

theorem getVolumeSignal_score_bounds (h : Except String (List Row)) :
    0 ≤ (getVolumeSignal h).score ∧ (getVolumeSignal h).score ≤ 10 := by
  unfold getVolumeSignal
  cases h with
  | error e => dsimp only; decide
  | ok hist =>
      dsimp only
      split_ifs <;> first | decide | (dsimp only; decide)

theorem scoreSocial_score_bounds (t : String) (l : List ApeEntry) :
    0 ≤ (scoreSocial t l).score ∧ (scoreSocial t l).score ≤ 9 := by
  unfold scoreSocial
  cases hf : l.find? (fun e => (e.ticker.getD "").toUpper == t.toUpper) with
  | none => dsimp only; decide
  | some m =>
      dsimp only
      split_ifs <;> decide

theorem getSocialSignal_eq_scoreSocial (st : DetectorState) (now : ℚ)
    (t : String) (resp : Except String (List ApeEntry)) :
    ∃ l, (getSocialSignal st now t resp).1 = scoreSocial t l :=
  ⟨(fetchApewisdomData st now resp).1, rfl⟩

/-! ## Helper lemmas: rounding -/

theorem roundHalfEven_le {q : ℚ} {n : ℤ} (h : q ≤ (n : ℚ)) : roundHalfEven q ≤ n := by
  have hf : ⌊q⌋ ≤ n := by
    have := Int.floor_le_floor h
    simpa using this
  have hfq : (⌊q⌋ : ℚ) ≤ q := Int.floor_le q
  unfold roundHalfEven
  split_ifs with h1 h2 h3
  · exact hf
  · have hlt : (⌊q⌋ : ℚ) < q := by linarith
    have : (⌊q⌋ : ℚ) < (n : ℚ) := lt_of_lt_of_le hlt h
    have : ⌊q⌋ < n := by exact_mod_cast this
    omega
  · exact hf
  · have hge : q - ⌊q⌋ ≥ 1/2 := le_of_not_lt h1
    have hlt : (⌊q⌋ : ℚ) < q := by linarith
    have : (⌊q⌋ : ℚ) < (n : ℚ) := lt_of_lt_of_le hlt h
    have : ⌊q⌋ < n := by exact_mod_cast this
    omega

theorem pyRound2_le {q : ℚ} {n : ℤ} (h : q * 100 ≤ (n : ℚ)) :
    pyRound2 q ≤ (n : ℚ) / 100 := by
  unfold pyRound2
  have hr : roundHalfEven (q * 100) ≤ n := roundHalfEven_le h
  have : (roundHalfEven (q * 100) : ℚ) ≤ (n : ℚ) := by exact_mod_cast hr
  linarith

theorem pyRound2_intCast (n : ℤ) : pyRound2 ((n : ℚ)) = (n : ℚ) := by
  have h : (n : ℚ) * 100 = ((n * 100 : ℤ) : ℚ) := by push_cast; ring
  unfold pyRound2 roundHalfEven
  rw [h, Int.floor_intCast, sub_self]
  rw [if_pos (by norm_num : (0 : ℚ) < 1/2)]
  push_cast
  ring

/-! ## Claims -/

/-- C1: for every ticker the composite alert level follows exactly the
precedence CRITICAL (weighted ≥ 7.5 AND signals_triggered ≥ 2), else HIGH
(weighted ≥ 6.0 OR signals_triggered ≥ 2), else MEDIUM (weighted ≥ 4.0),
else LOW; in particular weighted = 7.5 with signals_triggered = 1 is HIGH,
never CRITICAL. -/
theorem C1_alert_level_precedence :
    (∀ (w : ℚ) (n : ℕ),
      (alertLevel w n = .CRITICAL ↔ w ≥ 15/2 ∧ n ≥ 2) ∧
      (alertLevel w n = .HIGH ↔ ¬(w ≥ 15/2 ∧ n ≥ 2) ∧ (w ≥ 6 ∨ n ≥ 2)) ∧
      (alertLevel w n = .MEDIUM ↔
        ¬(w ≥ 15/2 ∧ n ≥ 2) ∧ ¬(w ≥ 6 ∨ n ≥ 2) ∧ w ≥ 4) ∧
      (alertLevel w n = .LOW ↔
        ¬(w ≥ 15/2 ∧ n ≥ 2) ∧ ¬(w ≥ 6 ∨ n ≥ 2) ∧ ¬(w ≥ 4))) ∧
    alertLevel (15/2) 1 = .HIGH ∧
    (∀ (st : DetectorState) (now : ℚ) (ticker : String) (env : Env),
      ((getEarlyWarningScore st now ticker env).1).alert_level =
        alertLevel
          (weightedScore
            ((getEarlyWarningScore st now ticker env).1).options_signal.score
            ((getEarlyWarningScore st now ticker env).1).volume_signal.score
            ((getEarlyWarningScore st now ticker env).1).social_signal.score)
          ((getEarlyWarningScore st now ticker env).1).signals_triggered) := by
  refine ⟨fun w n => ?_, ?_, fun st now ticker env => rfl⟩
  · unfold alertLevel
    split_ifs with h1 h2 h3 <;> refine ⟨?_, ?_, ?_, ?_⟩ <;> simp_all
  · have h1 : ¬((15:ℚ)/2 ≥ 15/2 ∧ (1:ℕ) ≥ 2) := by
      rintro ⟨-, h⟩; omega
    have h2 : (15:ℚ)/2 ≥ 6 ∨ (1:ℕ) ≥ 2 := by
      left; norm_num
    rw [alertLevel, if_neg h1, if_pos h2]

/-- C2: for every ticker the composite early_warning_score equals
0.40·options + 0.35·volume + 0.25·social rounded to 2 decimals; at the
combination input options = 10, volume = 0, social = 0 the weighted score
is exactly 4.00 and the alert level is MEDIUM whenever fewer than 2
signals triggered. -/
theorem C2_composite_weighted_rounding :
    (∀ (st : DetectorState) (now : ℚ) (ticker : String) (env : Env),
      ((getEarlyWarningScore st now ticker env).1).early_warning_score =
        pyRound2 (weightedScore
          ((getEarlyWarningScore st now ticker env).1).options_signal.score
          ((getEarlyWarningScore st now ticker env).1).volume_signal.score
          ((getEarlyWarningScore st now ticker env).1).social_signal.score)) ∧
    weightedScore 10 0 0 = 4 ∧
    pyRound2 (weightedScore 10 0 0) = 4 ∧
    (∀ n : ℕ, n < 2 → alertLevel (weightedScore 10 0 0) n = .MEDIUM) := by
  have hw : weightedScore 10 0 0 = 4 := by
    unfold weightedScore
    push_cast
    ring
  refine ⟨fun st now ticker env => rfl, hw, ?_, ?_⟩
  · rw [hw, show (4:ℚ) = ((4:ℤ):ℚ) by norm_num, pyRound2_intCast]
  · intro n hn
    rw [hw]
    have h1 : ¬((4:ℚ) ≥ 15/2 ∧ n ≥ 2) := by
      rintro ⟨h, -⟩; norm_num at h
    have h2 : ¬((4:ℚ) ≥ 6 ∨ n ≥ 2) := by
      rintro (h | h)
      · norm_num at h
      · omega
    have h3 : (4:ℚ) ≥ 4 := le_refl 4
    rw [alertLevel, if_neg h1, if_neg h2, if_pos h3]

/-- C2 witness: the MEDIUM classification at the concrete input
signals_triggered = 1. -/
theorem C2_composite_weighted_rounding_witness :
    (1:ℕ) < 2 ∧ alertLevel (weightedScore 10 0 0) 1 = .MEDIUM :=
  ⟨by omega, C2_composite_weighted_rounding.2.2.2 1 (by omega)⟩

/-- C3: the score of every result produced by the three signal scorers is
in [0, 10], for any provider input. -/
theorem C3_scores_in_range :
    (∀ p : OptionsProvider,
      0 ≤ (fetchOptionsSignal p).score ∧ (fetchOptionsSignal p).score ≤ 10) ∧
    (∀ h : Except String (List Row),
      0 ≤ (getVolumeSignal h).score ∧ (getVolumeSignal h).score ≤ 10) ∧
    (∀ (t : String) (l : List ApeEntry),
      0 ≤ (scoreSocial t l).score ∧ (scoreSocial t l).score ≤ 10) ∧
    (∀ (st : DetectorState) (now : ℚ) (t : String)
      (resp : Except String (List ApeEntry)),
      0 ≤ ((getSocialSignal st now t resp).1).score ∧
        ((getSocialSignal st now t resp).1).score ≤ 10) := by
  refine ⟨fun p => ⟨(fetchOptionsSignal_score_bounds p).1,
      le_trans (fetchOptionsSignal_score_bounds p).2 (by norm_num)⟩,
    fun h => getVolumeSignal_score_bounds h,
    fun t l => ⟨(scoreSocial_score_bounds t l).1,
      le_trans (scoreSocial_score_bounds t l).2 (by norm_num)⟩,
    fun st now t resp => ?_⟩
  obtain ⟨l, hl⟩ := getSocialSignal_eq_scoreSocial st now t resp
  rw [hl]
  exact ⟨(scoreSocial_score_bounds t l).1,
    le_trans (scoreSocial_score_bounds t l).2 (by norm_num)⟩

theorem labelOfScore_zero : labelOfScore 0 = .WEAK := by decide

theorem fetchOptionsSignal_signal_cases (p : OptionsProvider) :
    (fetchOptionsSignal p).signal = .NO_DATA ∨ (fetchOptionsSignal p).signal = .ERROR ∨
      (fetchOptionsSignal p).signal = labelOfScore (fetchOptionsSignal p).score := by
  unfold fetchOptionsSignal
  cases hE : p.expirations with
  | error e => exact Or.inr (Or.inl rfl)
  | ok exps =>
      dsimp only
      split_ifs
      · exact Or.inl rfl
      · exact Or.inr (Or.inr rfl)
      · exact Or.inr (Or.inr rfl)

theorem getVolumeSignal_signal_cases (h : Except String (List Row)) :
    (getVolumeSignal h).signal = .NO_DATA ∨ (getVolumeSignal h).signal = .ERROR ∨
      (getVolumeSignal h).signal = labelOfScore (getVolumeSignal h).score := by
  unfold getVolumeSignal
  cases h with
  | error e => exact Or.inr (Or.inl rfl)
  | ok hist =>
      dsimp only
      split_ifs
      all_goals first
        | exact Or.inl rfl
        | exact Or.inr (Or.inr rfl)

theorem scoreSocial_signal_cases (t : String) (l : List ApeEntry) :
    (scoreSocial t l).signal = .NO_DATA ∨
      (scoreSocial t l).signal = labelOfScore (scoreSocial t l).score := by
  unfold scoreSocial
  cases hf : l.find? (fun e => (e.ticker.getD "").toUpper == t.toUpper) with
  | none => exact Or.inl rfl
  | some m => exact Or.inr rfl

/-- C7: a zero score is always labelled NO_DATA, ERROR or WEAK, never
STRONG or MODERATE, for each of the three signal scorers. -/
theorem C7_zero_score_label :
    (∀ p : OptionsProvider, (fetchOptionsSignal p).score = 0 →
      (fetchOptionsSignal p).signal = .NO_DATA ∨
      (fetchOptionsSignal p).signal = .ERROR ∨
      (fetchOptionsSignal p).signal = .WEAK) ∧
    (∀ h : Except String (List Row), (getVolumeSignal h).score = 0 →
      (getVolumeSignal h).signal = .NO_DATA ∨
      (getVolumeSignal h).signal = .ERROR ∨
      (getVolumeSignal h).signal = .WEAK) ∧
    (∀ (t : String) (l : List ApeEntry), (scoreSocial t l).score = 0 →
      (scoreSocial t l).signal = .NO_DATA ∨
      (scoreSocial t l).signal = .ERROR ∨
      (scoreSocial t l).signal = .WEAK) := by
  refine ⟨fun p h0 => ?_, fun h h0 => ?_, fun t l h0 => ?_⟩
  · rcases fetchOptionsSignal_signal_cases p with h1 | h1 | h1
    · exact Or.inl h1
    · exact Or.inr (Or.inl h1)
    · refine Or.inr (Or.inr ?_)
      rw [h1, h0, labelOfScore_zero]
  · rcases getVolumeSignal_signal_cases h with h1 | h1 | h1
    · exact Or.inl h1
    · exact Or.inr (Or.inl h1)
    · refine Or.inr (Or.inr ?_)
      rw [h1, h0, labelOfScore_zero]
  · rcases scoreSocial_signal_cases t l with h1 | h1
    · exact Or.inl h1
    · refine Or.inr (Or.inr ?_)
      rw [h1, h0, labelOfScore_zero]

/-- C7 witness: a raised expiration-list fetch yields score 0 and an
allowed label. -/
theorem C7_zero_score_label_witness :
    (fetchOptionsSignal ⟨.error "boom", fun _ => .error "boom"⟩).score = 0 ∧
      ((fetchOptionsSignal ⟨.error "boom", fun _ => .error "boom"⟩).signal = .NO_DATA ∨
       (fetchOptionsSignal ⟨.error "boom", fun _ => .error "boom"⟩).signal = .ERROR ∨
       (fetchOptionsSignal ⟨.error "boom", fun _ => .error "boom"⟩).signal = .WEAK) :=
  ⟨rfl, C7_zero_score_label.1 _ rfl⟩

/-- C8: with successfully fetched options data, call_put_ratio > 3.0 forces
the unusual flag regardless of the volume/open-interest ratio, and the
score is the clamp of the two claimed threshold contributions. -/
theorem C8_options_scoring :
    (∀ t : Totals,
      (t.call_volume / (t.put_volume + 1) > 3 →
        (scoreOptionsTotals t).unusual_activity = true) ∧
      (scoreOptionsTotals t).unusual_activity =
        (decide (t.call_volume / (t.put_volume + 1) > 3) ||
          decide (t.call_volume / (t.call_oi + 1) > 1/2)) ∧
      (scoreOptionsTotals t).score =
        min ((if t.call_volume / (t.put_volume + 1) > 3 then (5:ℤ)
              else if t.call_volume / (t.put_volume + 1) > 2 then 3 else 0) +
             (if t.call_volume / (t.call_oi + 1) > 1/2 then (3:ℤ)
              else if t.call_volume / (t.call_oi + 1) > 3/10 then 2 else 0)) 10) ∧
    (∀ (p : OptionsProvider) (exps : List String),
      p.expirations = .ok exps → exps.length ≠ 0 →
      fetchOptionsSignal p =
        scoreOptionsTotals (sumChains p.chain
          (if exps.length ≥ 2 then exps.take 2 else exps.take 1))) := by
  refine ⟨fun t => ⟨fun h => ?_, rfl, rfl⟩, fun p exps hE hne => ?_⟩
  · simp only [scoreOptionsTotals]
    simp [h]
  · unfold fetchOptionsSignal
    rw [hE]
    dsimp only
    rw [if_neg hne]

/-- C8 witness: calls 400, puts 50, enormous call OI — ratio ≈ 7.8 > 3,
unusual fires; and a one-expiration success run goes through the totals
scorer. -/
theorem C8_options_scoring_witness :
    ((⟨400, 50, 1000000, 0⟩ : Totals).call_volume /
        ((⟨400, 50, 1000000, 0⟩ : Totals).put_volume + 1) > 3 ∧
      (scoreOptionsTotals ⟨400, 50, 1000000, 0⟩).unusual_activity = true) ∧
    ((⟨.ok ["d1"], fun _ => .error "x"⟩ : OptionsProvider).expirations = .ok ["d1"] ∧
      (["d1"] : List String).length ≠ 0 ∧
      fetchOptionsSignal ⟨.ok ["d1"], fun _ => .error "x"⟩ =
        scoreOptionsTotals (sumChains (fun _ => .error "x")
          (if (["d1"] : List String).length ≥ 2
           then (["d1"] : List String).take 2
           else (["d1"] : List String).take 1))) := by
  have hr : (⟨400, 50, 1000000, 0⟩ : Totals).call_volume /
      ((⟨400, 50, 1000000, 0⟩ : Totals).put_volume + 1) > 3 := by
    norm_num
  refine ⟨⟨hr, (C8_options_scoring.1 ⟨400, 50, 1000000, 0⟩).1 hr⟩,
    rfl, by decide, C8_options_scoring.2 ⟨.ok ["d1"], fun _ => .error "x"⟩ ["d1"] rfl (by decide)⟩

/-- C9: fewer than 5 history rows always yields the NO_DATA volume result
with score 0, whatever the row values. -/
theorem C9_volume_insufficient_history :
    ∀ hist : List Row, hist.length < 5 →
      getVolumeSignal (.ok hist) = volumeNoData ∧
      volumeNoData.score = 0 ∧ volumeNoData.signal = .NO_DATA := by
  intro hist h
  refine ⟨?_, rfl, rfl⟩
  unfold getVolumeSignal
  dsimp only
  rw [if_pos h]

/-- C9 witness: four rows of extreme values still give NO_DATA. -/
theorem C9_volume_insufficient_history_witness :
    ([⟨-5, 1000000⟩, ⟨0, 0⟩, ⟨7, 3⟩, ⟨100, 9⟩] : List Row).length < 5 ∧
      getVolumeSignal (.ok [⟨-5, 1000000⟩, ⟨0, 0⟩, ⟨7, 3⟩, ⟨100, 9⟩]) = volumeNoData :=
  ⟨by decide,
    (C9_volume_insufficient_history [⟨-5, 1000000⟩, ⟨0, 0⟩, ⟨7, 3⟩, ⟨100, 9⟩] (by decide)).1⟩

theorem sqrtRatioGTTwo_correct (a b c : ℚ) (ha : 0 ≤ a) (hb : 0 ≤ b) (hc : 0 < c) :
    sqrtRatioGTTwo a b c = true ↔
      2 < Real.sqrt (a:ℝ) / (Real.sqrt (b:ℝ) + (c:ℝ)) := by
  have hbR : (0:ℝ) ≤ (b:ℝ) := by exact_mod_cast hb
  have haR : (0:ℝ) ≤ (a:ℝ) := by exact_mod_cast ha
  have hcR : (0:ℝ) < (c:ℝ) := by exact_mod_cast hc
  have hsb : (0:ℝ) ≤ Real.sqrt (b:ℝ) := Real.sqrt_nonneg _
  have hden : (0:ℝ) < Real.sqrt (b:ℝ) + (c:ℝ) := by linarith
  have hsq : Real.sqrt (b:ℝ) ^ 2 = (b:ℝ) := Real.sq_sqrt hbR
  unfold sqrtRatioGTTwo
  rw [decide_eq_true_eq, lt_div_iff₀ hden,
    show (2:ℝ) * (Real.sqrt (b:ℝ) + (c:ℝ)) = 2 * Real.sqrt (b:ℝ) + 2 * c by ring,
    Real.lt_sqrt (by positivity)]
  constructor
  · rintro ⟨h1, h2⟩
    have h1R : (0:ℝ) < (a:ℝ) - 4*b - (2*c)^2 := by exact_mod_cast h1
    have h2R : (16:ℝ) * (2*c)^2 * b < ((a:ℝ) - 4*b - (2*c)^2)^2 := by exact_mod_cast h2
    have hkey : 8*(c:ℝ)*Real.sqrt (b:ℝ) < (a:ℝ) - 4*b - (2*c)^2 := by
      apply lt_of_pow_lt_pow_left₀ 2 (le_of_lt h1R)
      calc (8*(c:ℝ)*Real.sqrt (b:ℝ))^2
          = 64*(c:ℝ)^2*(Real.sqrt (b:ℝ)^2) := by ring
        _ = 64*(c:ℝ)^2*(b:ℝ) := by rw [hsq]
        _ = 16*(2*(c:ℝ))^2*(b:ℝ) := by ring
        _ < _ := h2R
    nlinarith [hsq, hsb, hkey]
  · intro h
    have hkey : 8*(c:ℝ)*Real.sqrt (b:ℝ) < (a:ℝ) - 4*b - (2*c)^2 := by nlinarith [hsq]
    have hnn : (0:ℝ) ≤ 8*(c:ℝ)*Real.sqrt (b:ℝ) := by positivity
    have h1R : (0:ℝ) < (a:ℝ) - 4*b - (2*c)^2 := lt_of_le_of_lt hnn hkey
    have e1 : (8*(c:ℝ)*Real.sqrt (b:ℝ))^2 = 16*(2*(c:ℝ))^2*(b:ℝ) := by
      have e0 : (8*(c:ℝ)*Real.sqrt (b:ℝ))^2 = 64*(c:ℝ)^2*(Real.sqrt (b:ℝ)^2) := by ring
      rw [e0, hsq]
      ring
    have h2R : (16:ℝ)*(2*(c:ℝ))^2*(b:ℝ) < ((a:ℝ) - 4*b - (2*c)^2)^2 := by
      rw [← e1]
      exact pow_lt_pow_left₀ hkey hnn (by norm_num)
    constructor
    · exact_mod_cast h1R
    · exact_mod_cast h2R

theorem cacheLookup_mem {c : List (String × OptionsResult × ℚ)} {k : String}
    {v : OptionsResult × ℚ} (h : cacheLookup c k = some v) : ∃ e ∈ c, e.2 = v := by
  unfold cacheLookup at h
  cases hf : c.find? (fun e => e.1 == k) with
  | none => rw [hf] at h; simp at h
  | some e =>
      rw [hf] at h
      simp only [Option.map_some'] at h
      exact ⟨e, List.mem_of_find?_eq_some hf, by simpa using h⟩

theorem getOptionsSignal_bounds (st : DetectorState) (now : ℚ) (t : String)
    (p : OptionsProvider) (hst : OptionsCacheBounded st) :
    (0 ≤ ((getOptionsSignal st now t p).1).score ∧
      ((getOptionsSignal st now t p).1).score ≤ 8) ∧
    OptionsCacheBounded ((getOptionsSignal st now t p).2) := by
  have hins : OptionsCacheBounded
      { st with optionsCache :=
          cacheInsert st.optionsCache t.toUpper (fetchOptionsSignal p, now) } := by
    intro e he
    unfold cacheInsert at he
    rcases List.mem_cons.mp he with h | h
    · rw [h]
      exact fetchOptionsSignal_score_bounds p
    · exact hst e (List.mem_of_mem_filter h)
  unfold getOptionsSignal
  dsimp only
  cases hl : cacheLookup st.optionsCache t.toUpper with
  | none => exact ⟨fetchOptionsSignal_score_bounds p, hins⟩
  | some v =>
      obtain ⟨data, ts⟩ := v
      dsimp only
      split_ifs with htl
      · refine ⟨?_, hst⟩
        obtain ⟨e, hmem, hev⟩ := cacheLookup_mem hl
        have hb := hst e hmem
        rw [hev] at hb
        exact hb
      · exact ⟨fetchOptionsSignal_score_bounds p, hins⟩

theorem fetchApewisdomData_optionsCache (st : DetectorState) (now : ℚ)
    (resp : Except String (List ApeEntry)) :
    ((fetchApewisdomData st now resp).2.1).optionsCache = st.optionsCache := by
  rcases st with ⟨ac, ats, oc⟩
  unfold fetchApewisdomData apeFetch
  cases ac with
  | none => cases resp <;> rfl
  | some c =>
      cases ats with
      | none => cases resp <;> rfl
      | some ts =>
          dsimp only
          split_ifs
          · rfl
          · cases resp <;> rfl

/-- C10: the options success path scores at most 8 and the social scorer at
most 9, the clamp at 10 reduces neither, and consequently the unrounded
composite weighted score is at most 8.95 and an early_warning_score of 10
is unreachable. -/
theorem C10_score_ten_unreachable :
    (∀ t : Totals,
      (scoreOptionsTotals t).score ≤ 8 ∧
      (scoreOptionsTotals t).score =
        (if t.call_volume / (t.put_volume + 1) > 3 then (5:ℤ)
         else if t.call_volume / (t.put_volume + 1) > 2 then 3 else 0) +
        (if t.call_volume / (t.call_oi + 1) > 1/2 then (3:ℤ)
         else if t.call_volume / (t.call_oi + 1) > 3/10 then 2 else 0)) ∧
    (∀ (t : String) (l : List ApeEntry), (scoreSocial t l).score ≤ 9) ∧
    (∀ (t : String) (l : List ApeEntry) (m : ApeEntry),
      l.find? (fun e => (e.ticker.getD "").toUpper == t.toUpper) = some m →
      (scoreSocial t l).score =
        (if m.rank.getD 999 ≤ 5 then (5:ℤ)
         else if m.rank.getD 999 ≤ 15 then 3
         else if m.rank.getD 999 ≤ 30 then 2
         else if m.rank.getD 999 ≤ 50 then 1 else 0) +
        (if m.mentions.getD 0 ≥ 100 then (4:ℤ)
         else if m.mentions.getD 0 ≥ 50 then 3
         else if m.mentions.getD 0 ≥ 20 then 2
         else if m.mentions.getD 0 ≥ 10 then 1 else 0)) ∧
    (∀ (st : DetectorState) (now : ℚ) (ticker : String) (env : Env),
      OptionsCacheBounded st →
      weightedScore ((getEarlyWarningScore st now ticker env).1).options_signal.score
          ((getEarlyWarningScore st now ticker env).1).volume_signal.score
          ((getEarlyWarningScore st now ticker env).1).social_signal.score ≤ 895/100 ∧
      ((getEarlyWarningScore st now ticker env).1).early_warning_score ≠ 10 ∧
      OptionsCacheBounded ((getEarlyWarningScore st now ticker env).2)) := by
  refine ⟨fun t => ⟨(scoreOptionsTotals_score_bounds t).2, ?_⟩,
    fun t l => (scoreSocial_score_bounds t l).2, fun t l m hm => ?_, ?_⟩
  · simp only [scoreOptionsTotals]
    split_ifs <;> decide
  · unfold scoreSocial
    rw [hm]
    dsimp only
    split_ifs <;> decide
  · intro st now ticker env hst
    have ho := getOptionsSignal_bounds st now (ticker.toUpper) env.options hst
    have ho8 :
        ((getEarlyWarningScore st now ticker env).1).options_signal.score ≤ 8 := ho.1.2
    have hv10 :
        ((getEarlyWarningScore st now ticker env).1).volume_signal.score ≤ 10 :=
      (getVolumeSignal_score_bounds env.history).2
    have hs9 :
        ((getEarlyWarningScore st now ticker env).1).social_signal.score ≤ 9 := by
      have hss :
          ((getEarlyWarningScore st now ticker env).1).social_signal =
            scoreSocial (ticker.toUpper)
              (fetchApewisdomData
                ((getOptionsSignal st now (ticker.toUpper) env.options).2)
                now env.ape).1 := rfl
      rw [hss]
      exact (scoreSocial_score_bounds _ _).2
    have hw : weightedScore
        ((getEarlyWarningScore st now ticker env).1).options_signal.score
        ((getEarlyWarningScore st now ticker env).1).volume_signal.score
        ((getEarlyWarningScore st now ticker env).1).social_signal.score ≤ 895/100 := by
      unfold weightedScore
      have c8 : (((getEarlyWarningScore st now ticker env).1).options_signal.score : ℚ) ≤ 8 := by
        exact_mod_cast ho8
      have c10 : (((getEarlyWarningScore st now ticker env).1).volume_signal.score : ℚ) ≤ 10 := by
        exact_mod_cast hv10
      have c9 : (((getEarlyWarningScore st now ticker env).1).social_signal.score : ℚ) ≤ 9 := by
        exact_mod_cast hs9
      linarith
    refine ⟨hw, ?_, ?_⟩
    · have hearly :
          ((getEarlyWarningScore st now ticker env).1).early_warning_score =
            pyRound2 (weightedScore
              ((getEarlyWarningScore st now ticker env).1).options_signal.score
              ((getEarlyWarningScore st now ticker env).1).volume_signal.score
              ((getEarlyWarningScore st now ticker env).1).social_signal.score) := rfl
      have hb : pyRound2 (weightedScore
          ((getEarlyWarningScore st now ticker env).1).options_signal.score
          ((getEarlyWarningScore st now ticker env).1).volume_signal.score
          ((getEarlyWarningScore st now ticker env).1).social_signal.score) ≤ (895:ℤ)/100 := by
        apply pyRound2_le
        push_cast
        linarith
      intro hcontra
      rw [hearly] at hcontra
      rw [hcontra] at hb
      norm_num at hb
    · have hoc :
          ((getEarlyWarningScore st now ticker env).2).optionsCache =
            ((getOptionsSignal st now (ticker.toUpper) env.options).2).optionsCache := by
        exact fetchApewisdomData_optionsCache
          ((getOptionsSignal st now (ticker.toUpper) env.options).2) now env.ape
      intro e he
      rw [hoc] at he
      exact ho.2 e he

/-- C10 witness: the composite part instantiated at the freshly initialised
detector state. -/
theorem C10_score_ten_unreachable_witness :
    OptionsCacheBounded DetectorState.init ∧
      ((getEarlyWarningScore DetectorState.init 0 "GME" envFirst).1).early_warning_score ≠ 10 :=
  ⟨by intro e he; simp [DetectorState.init] at he,
    (C10_score_ten_unreachable.2.2.2 DetectorState.init 0 "GME" envFirst
      (by intro e he; simp [DetectorState.init] at he)).2.1⟩

/-- C4: the watchlist scan returns exactly the results of the tickers whose
scoring did not raise (a raising ticker is skipped, never aborting the
scan), sorted by descending early_warning_score; concretely, scanning
[A, B, C] where B raises yields only A's and C's results in score order. -/
theorem C4_scan_skips_failures_sorted :
    (∀ (f : String → DetectorState → Option CompositeResult × DetectorState)
      (st : DetectorState) (tickers : List String),
      ((scanWatchlist f st tickers).1).Perm ((runScan f st tickers).1) ∧
      ((scanWatchlist f st tickers).1).Pairwise
        (fun a b => b.early_warning_score ≤ a.early_warning_score) ∧
      (scanWatchlist f st tickers).2 = (runScan f st tickers).2) ∧
    (scanWatchlist exScanStep DetectorState.init ["A", "B", "C"]).1 =
      [exComposite "A" 5, exComposite "C" 2] := by
  constructor
  · intro f st tickers
    refine ⟨List.mergeSort_perm _ _, ?_, rfl⟩
    have hs := @List.sorted_mergeSort CompositeResult
      (fun a b =>
        decide (b.early_warning_score ≤ a.early_warning_score))
      (fun a b c hab hbc => by
        simp only [decide_eq_true_eq] at *
        exact le_trans hbc hab)
      (fun a b => by
        simp only [Bool.or_eq_true, decide_eq_true_eq]
        exact le_total _ _)
      ((runScan f st tickers).1)
    exact hs.imp (fun h => of_decide_eq_true h)
  · have hrun : (runScan exScanStep DetectorState.init ["A", "B", "C"]).1 =
        [exComposite "A" 5, exComposite "C" 2] := rfl
    show sortDescending (runScan exScanStep DetectorState.init ["A", "B", "C"]).1 = _
    rw [hrun]
    unfold sortDescending
    apply List.mergeSort_of_sorted
    refine List.Pairwise.cons (fun b hb => ?_)
      (List.Pairwise.cons (fun b hb => (List.not_mem_nil b hb).elim) List.Pairwise.nil)
    have hbe := List.mem_singleton.mp hb
    subst hbe
    exact decide_eq_true (show (2:ℚ) ≤ 5 by norm_num)

/-- C5: a cold ApeWisdom fetch at time t stores the shared list with
timestamp t, and any social-signal call for any ticker strictly less than
600 seconds later is served from that cached list, leaves the state
untouched and never calls the provider. -/
theorem C5_social_shared_cache :
    (∀ (st : DetectorState) (now : ℚ) (results : List ApeEntry),
      st.apeCache = none →
      fetchApewisdomData st now (.ok results) =
        (results, { st with apeCache := some results, apeTs := some now }, true)) ∧
    (∀ (st : DetectorState) (c : List ApeEntry) (ts now : ℚ) (ticker : String)
      (resp : Except String (List ApeEntry)),
      st.apeCache = some c → st.apeTs = some ts → now - ts < 600 →
      getSocialSignal st now ticker resp = (scoreSocial ticker c, st, false)) := by
  constructor
  · intro st now results hnone
    rcases st with ⟨ac, ats, oc⟩
    dsimp only at hnone
    subst hnone
    rfl
  · intro st c ts now ticker resp hc hts hlt
    rcases st with ⟨ac, ats, oc⟩
    dsimp only at hc hts
    subst hc
    subst hts
    unfold getSocialSignal fetchApewisdomData
    dsimp only
    rw [if_pos hlt]

/-- C5 witness: cold fetch at t = 5 stores the (empty) shared list; the
call at t = 100 for another ticker is a pure cache hit. -/
theorem C5_social_shared_cache_witness :
    ((⟨none, none, []⟩ : DetectorState).apeCache = none ∧
      fetchApewisdomData ⟨none, none, []⟩ 5 (.ok []) =
        ([], ⟨some [], some 5, []⟩, true)) ∧
    ((⟨some [], some 5, []⟩ : DetectorState).apeCache = some [] ∧
      (⟨some [], some 5, []⟩ : DetectorState).apeTs = some 5 ∧
      (100:ℚ) - 5 < 600 ∧
      getSocialSignal ⟨some [], some 5, []⟩ 100 "GME" (.error "down") =
        (scoreSocial "GME" [], ⟨some [], some 5, []⟩, false)) :=
  ⟨⟨rfl, C5_social_shared_cache.1 ⟨none, none, []⟩ 5 [] rfl⟩,
    rfl, rfl, by norm_num,
    C5_social_shared_cache.2 ⟨some [], some 5, []⟩ [] 5 100 "GME" (.error "down")
      rfl rfl (by norm_num)⟩

/-- C6 counterexample: two calls for the same ticker 100 seconds apart —
within the options (4 h) and social (10 min) TTL windows, and volume has no
cache at all — still return different volume_signal sub-objects when the
history provider's responses differ (empty frame first, raised error
second), so the composites are not bit-identical as claimed. -/
theorem C6_counterexample :
    (100:ℚ) - 0 < 600 ∧ (100:ℚ) - 0 < optionsCacheTTL ∧
    ((getEarlyWarningScore
        ((getEarlyWarningScore DetectorState.init 0 "GME" envFirst).2)
        100 "GME" envSecond).1).volume_signal ≠
      ((getEarlyWarningScore DetectorState.init 0 "GME" envFirst).1).volume_signal := by
  refine ⟨by norm_num, by norm_num [optionsCacheTTL], ?_⟩
  have h1 : ((getEarlyWarningScore DetectorState.init 0 "GME" envFirst).1).volume_signal
      = volumeNoData := rfl
  have h2 : ((getEarlyWarningScore
      ((getEarlyWarningScore DetectorState.init 0 "GME" envFirst).2)
      100 "GME" envSecond).1).volume_signal = volumeError := rfl
  rw [h1, h2]
  decide

/-- C6 amended: calling getEarlyWarningScore twice for the same ticker from
a cold-cache state, the first social fetch succeeding and the second call
within the options (4 h) and social (10 min) TTL windows of the first,
returns bit-identical options_signal and social_signal sub-objects; the
volume_signal is recomputed uncached on every call, so it is bit-identical
whenever the history provider returns an identical response. -/
theorem C6_cache_hit_determinism (st0 : DetectorState) (t1 t2 : ℚ) (tick : String)
    (e1 e2 : Env) (res1 : List ApeEntry)
    (hoc : st0.optionsCache = [])
    (hac : st0.apeCache = none)
    (hok : e1.ape = .ok res1)
    (httl : t2 - t1 < optionsCacheTTL)
    (hsoc : t2 - t1 < 600) :
    ((getEarlyWarningScore (getEarlyWarningScore st0 t1 tick e1).2 t2 tick e2).1).options_signal =
      ((getEarlyWarningScore st0 t1 tick e1).1).options_signal ∧
    ((getEarlyWarningScore (getEarlyWarningScore st0 t1 tick e1).2 t2 tick e2).1).social_signal =
      ((getEarlyWarningScore st0 t1 tick e1).1).social_signal ∧
    (e2.history = e1.history →
      ((getEarlyWarningScore (getEarlyWarningScore st0 t1 tick e1).2 t2 tick e2).1).volume_signal =
        ((getEarlyWarningScore st0 t1 tick e1).1).volume_signal) := by
  rcases st0 with ⟨ac, ats, oc⟩
  dsimp only at hoc hac
  subst hoc
  subst hac
  have hst1 : (getEarlyWarningScore ⟨none, ats, []⟩ t1 tick e1).2 =
      ⟨some res1, some t1,
        [(tick.toUpper.toUpper, (fetchOptionsSignal e1.options, t1))]⟩ := by
    show (getSocialSignal
        ⟨none, ats, [(tick.toUpper.toUpper, (fetchOptionsSignal e1.options, t1))]⟩
        t1 tick.toUpper e1.ape).2.1 = _
    unfold getSocialSignal fetchApewisdomData apeFetch
    rw [hok]
  have hopt1 : ((getEarlyWarningScore ⟨none, ats, []⟩ t1 tick e1).1).options_signal =
      fetchOptionsSignal e1.options := rfl
  have hsoc1 : ((getEarlyWarningScore ⟨none, ats, []⟩ t1 tick e1).1).social_signal =
      scoreSocial tick.toUpper res1 := by
    show (getSocialSignal
        ⟨none, ats, [(tick.toUpper.toUpper, (fetchOptionsSignal e1.options, t1))]⟩
        t1 tick.toUpper e1.ape).1 = _
    unfold getSocialSignal fetchApewisdomData apeFetch
    rw [hok]
  have hlook : cacheLookup
      [(tick.toUpper.toUpper, (fetchOptionsSignal e1.options, t1))]
      (tick.toUpper).toUpper = some (fetchOptionsSignal e1.options, t1) := by
    unfold cacheLookup
    rw [List.find?_cons_of_pos _ (by simp)]
    rfl
  have hopt2 : getOptionsSignal
      ⟨some res1, some t1,
        [(tick.toUpper.toUpper, (fetchOptionsSignal e1.options, t1))]⟩
      t2 tick.toUpper e2.options =
      (fetchOptionsSignal e1.options,
        ⟨some res1, some t1,
          [(tick.toUpper.toUpper, (fetchOptionsSignal e1.options, t1))]⟩) := by
    unfold getOptionsSignal
    dsimp only
    rw [hlook]
    dsimp only
    rw [if_pos httl]
  have hsoc2 : getSocialSignal
      ⟨some res1, some t1,
        [(tick.toUpper.toUpper, (fetchOptionsSignal e1.options, t1))]⟩
      t2 tick.toUpper e2.ape =
      (scoreSocial tick.toUpper res1,
        ⟨some res1, some t1,
          [(tick.toUpper.toUpper, (fetchOptionsSignal e1.options, t1))]⟩, false) := by
    unfold getSocialSignal fetchApewisdomData
    dsimp only
    rw [if_pos hsoc]
  refine ⟨?_, ?_, fun hh => ?_⟩
  · rw [hst1, hopt1]
    show (getOptionsSignal
        ⟨some res1, some t1,
          [(tick.toUpper.toUpper, (fetchOptionsSignal e1.options, t1))]⟩
        t2 tick.toUpper e2.options).1 = _
    rw [hopt2]
  · rw [hst1, hsoc1]
    show (getSocialSignal
        ((getOptionsSignal
          ⟨some res1, some t1,
            [(tick.toUpper.toUpper, (fetchOptionsSignal e1.options, t1))]⟩
          t2 tick.toUpper e2.options).2) t2 tick.toUpper e2.ape).1 = _
    rw [hopt2]
    dsimp only
    rw [hsoc2]
  · rw [hst1]
    show getVolumeSignal e2.history = getVolumeSignal e1.history
    rw [hh]

/-- C6 amended witness: the two concrete calls 100 seconds apart from the
initial state; options and social sub-objects coincide. -/
theorem C6_cache_hit_determinism_witness :
    DetectorState.init.optionsCache = [] ∧ DetectorState.init.apeCache = none ∧
    envFirst.ape = .ok [] ∧ (100:ℚ) - 0 < optionsCacheTTL ∧ (100:ℚ) - 0 < 600 ∧
    (((getEarlyWarningScore (getEarlyWarningScore DetectorState.init 0 "GME" envFirst).2
        100 "GME" envSecond).1).options_signal =
      ((getEarlyWarningScore DetectorState.init 0 "GME" envFirst).1).options_signal ∧
    ((getEarlyWarningScore (getEarlyWarningScore DetectorState.init 0 "GME" envFirst).2
        100 "GME" envSecond).1).social_signal =
      ((getEarlyWarningScore DetectorState.init 0 "GME" envFirst).1).social_signal ∧
    (envSecond.history = envFirst.history →
      ((getEarlyWarningScore (getEarlyWarningScore DetectorState.init 0 "GME" envFirst).2
          100 "GME" envSecond).1).volume_signal =
        ((getEarlyWarningScore DetectorState.init 0 "GME" envFirst).1).volume_signal)) :=
  ⟨rfl, rfl, rfl, by norm_num [optionsCacheTTL], by norm_num,
    C6_cache_hit_determinism DetectorState.init 0 100 "GME" envFirst envSecond []
      rfl rfl rfl (by norm_num [optionsCacheTTL]) (by norm_num)⟩

/-- C1 witness: the CRITICAL characterisation instantiated at weighted = 8,
signals_triggered = 2. -/
theorem C1_alert_level_precedence_witness :
    alertLevel 8 2 = .CRITICAL :=
  (C1_alert_level_precedence.1 8 2).1.mpr ⟨by norm_num, by omega⟩

/-- C3 witness: the options bound instantiated at a raising provider. -/
theorem C3_scores_in_range_witness :
    0 ≤ (fetchOptionsSignal ⟨.error "down", fun _ => .error "down"⟩).score ∧
      (fetchOptionsSignal ⟨.error "down", fun _ => .error "down"⟩).score ≤ 10 :=
  C3_scores_in_range.1 ⟨.error "down", fun _ => .error "down"⟩

end MemeDetector
